import Mathlib

/-!
Verification of the connection-automation core of the linkedin_scraper
repository: the quota ledger (connection_automation/tracker.py), the
safety manager (connection_automation/safety_manager.py), the per-target
request state machine (connection_automation/connection_sender.py) and
the orchestrator loop (scripts/run_connection_sender.py).

Time is modelled as a natural number of minutes since an arbitrary local
epoch aligned to midnight, so one day is 1440 minutes and seven days are
10080 minutes; "midnight of t" is t rounded down to a multiple of 1440,
mirroring datetime.now().replace(hour=0, minute=0, second=0, microsecond=0).
The SQLite table of tracker.py is modelled as a list of rows in insertion
order; the UNIQUE NOT NULL constraint on profile_id is modelled inside
markAsSent (a duplicate insert raises sqlite3.IntegrityError, which the
source catches and ignores).
-/

def dayMinutes : Nat := 1440

def weekMinutes : Nat := 10080

/-- Midnight of the local day containing t, as in
datetime.now().replace(hour=0, minute=0, second=0, microsecond=0). -/
def midnight (t : Nat) : Nat := dayMinutes * (t / dayMinutes)

/-- One row of the connections table created by
ConnectionTracker._init_database (tracker.py, lines 26-48). -/
structure Entry where
  profile_id : String
  profile_url : String
  poster_name : Option String
  job_title : Option String
  company : Option String
  sent_at : Nat
  status : String
  error_message : Option String
deriving DecidableEq, Repr

/-- One input record as consumed by the orchestrator loop
(run_connection_sender.py, lines 195-200); the string fields carry the
"Unknown" defaults that profile.get supplies there. -/
structure Profile where
  poster_profile_id : Option String
  poster_profile_url : String
  poster_name : String
  job_title : String
  company : String
deriving DecidableEq, Repr

/-- ConnectionTracker.already_contacted (tracker.py, lines 50-71):
SELECT COUNT(*) over rows with the given profile_id, then count > 0. -/
def alreadyContacted (db : List Entry) (pid : String) : Bool :=
  decide (0 < (db.filter (fun e => e.profile_id == pid)).length)

/-- ConnectionTracker.mark_as_sent (tracker.py, lines 73-120): INSERT of
one row; if a row with the same profile_id exists, the UNIQUE constraint
raises sqlite3.IntegrityError, which the except clause swallows, so the
call is a no-op and never raises to the caller. -/
def markAsSent (db : List Entry) (e : Entry) : List Entry :=
  if db.any (fun x => x.profile_id == e.profile_id) then db else db ++ [e]

/-- SafetyManager.get_requests_today (safety_manager.py, lines 29-51):
COUNT of rows with sent_at >= the midnight of today and status = success. -/
def getRequestsToday (db : List Entry) (now : Nat) : Nat :=
  (db.filter (fun e => decide (midnight now ≤ e.sent_at) && (e.status == "success"))).length

/-- SafetyManager.get_requests_this_week (safety_manager.py, lines 53-75):
COUNT of rows with sent_at >= now - 7 days and status = success. -/
def getRequestsThisWeek (db : List Entry) (now : Nat) : Nat :=
  (db.filter (fun e => decide (now - weekMinutes ≤ e.sent_at) && (e.status == "success"))).length

/-- SafetyManager.can_send_request (safety_manager.py, lines 77-94). -/
def canSendRequest (db : List Entry) (now : Nat) (dailyLimit weeklyLimit : Nat) :
    Bool × String :=
  let requestsToday := getRequestsToday db now
  let requestsThisWeek := getRequestsThisWeek db now
  if dailyLimit ≤ requestsToday then
    (false, "Daily limit reached (" ++ toString requestsToday ++ "/" ++ toString dailyLimit ++ ")")
  else if weeklyLimit ≤ requestsThisWeek then
    (false, "Weekly limit reached (" ++ toString requestsThisWeek ++ "/" ++ toString weeklyLimit ++ ")")
  else
    (true, "OK")

/-- The dictionary returned by SafetyManager.get_quota_status
(safety_manager.py, lines 96-114). Remaining quotas use natural-number
subtraction, which truncates at zero exactly like max(0, limit - used). -/
structure QuotaStatus where
  daily_used : Nat
  daily_limit : Nat
  daily_remaining : Nat
  weekly_used : Nat
  weekly_limit : Nat
  weekly_remaining : Nat
  can_send : Bool
deriving DecidableEq, Repr

/-- SafetyManager.get_quota_status (safety_manager.py, lines 96-114). -/
def getQuotaStatus (db : List Entry) (now : Nat) (dailyLimit weeklyLimit : Nat) :
    QuotaStatus :=
  let requestsToday := getRequestsToday db now
  let requestsThisWeek := getRequestsThisWeek db now
  { daily_used := requestsToday
    daily_limit := dailyLimit
    daily_remaining := dailyLimit - requestsToday
    weekly_used := requestsThisWeek
    weekly_limit := weeklyLimit
    weekly_remaining := weeklyLimit - requestsThisWeek
    can_send := decide (requestsToday < dailyLimit) && decide (requestsThisWeek < weeklyLimit) }

/-- SafetyManager.get_daily_reset_time (safety_manager.py, lines 143-151):
midnight of today plus one day. -/
def getDailyResetTime (now : Nat) : Nat := midnight now + dayMinutes

/-- Minimum of a list of naturals, none on the empty list; stands for
ORDER BY sent_at ASC LIMIT 1. -/
def listMinNat : List Nat → Option Nat
  | [] => none
  | x :: xs =>
    match listMinNat xs with
    | none => some x
    | some m => some (Nat.min x m)

/-- The SELECT inside SafetyManager.suggest_next_run_time
(safety_manager.py, lines 185-191): the earliest sent_at among success
rows of the trailing 7-day window. -/
def oldestSuccessThisWeek (db : List Entry) (now : Nat) : Option Nat :=
  listMinNat ((db.filter
    (fun e => decide (now - weekMinutes ≤ e.sent_at) && (e.status == "success"))).map
      (fun e => e.sent_at))

/-- Outcome of SafetyManager.suggest_next_run_time, one constructor per
return site of the source (safety_manager.py, lines 164-205); the reset
constructors carry the instant the human-readable message is computed
from (next midnight, or oldest windowed success plus seven days). -/
inductive Suggestion where
  | runNow
  | dailyReset (resetTime : Nat)
  | weeklyReset (resetTime : Nat)
  | waitSevenDays
  | checkStatus
deriving DecidableEq, Repr

/-- SafetyManager.suggest_next_run_time (safety_manager.py, lines 164-205). -/
def suggestNextRunTime (db : List Entry) (now : Nat) (dailyLimit weeklyLimit : Nat) :
    Suggestion :=
  let status := getQuotaStatus db now dailyLimit weeklyLimit
  if 0 < status.daily_remaining ∧ 0 < status.weekly_remaining then
    Suggestion.runNow
  else if dailyLimit ≤ status.daily_used then
    Suggestion.dailyReset (getDailyResetTime now)
  else if weeklyLimit ≤ status.weekly_used then
    match oldestSuccessThisWeek db now with
    | some t0 => Suggestion.weeklyReset (t0 + weekMinutes)
    | none => Suggestion.waitSevenDays
  else
    Suggestion.checkStatus

/-- What the Selenium driver reports for one target, one field per
observable the state machine consults (connection_sender.py):
whether driver.get succeeds, the three already-connected indicator
selectors of is_already_connected, whether find_connect_button locates a
control, whether the modal Send button appears within the bounded wait,
whether a Pending marker is found after the modal wait times out,
whether verify_connection_sent finds the Pending button, and an
unexpected exception raised inside the interaction try-block, if any. -/
structure Driver where
  navigateOk : Bool
  messageButton : Bool
  pendingButton : Bool
  pendingText : Bool
  connectButton : Bool
  modalSendButton : Bool
  pendingAfterTimeout : Bool
  verifyPending : Bool
  interactionError : Option String
deriving DecidableEq, Repr

/-- ConnectionSender.is_already_connected (connection_sender.py, lines
48-70): true when any of the three indicator selectors matches. -/
def isAlreadyConnected (drv : Driver) : Bool :=
  drv.messageButton || drv.pendingButton || drv.pendingText

/-- ConnectionSender.send_connection_request (connection_sender.py, lines
115-166). An unexpected exception anywhere in the try-block is caught by
the outer except and becomes (False, "Error sending request: ..."). -/
def sendConnectionRequest (drv : Driver) : Bool × String :=
  match drv.interactionError with
  | some e => (false, "Error sending request: " ++ e)
  | none =>
    if !drv.connectButton then
      (false, "Connect button not found")
    else if drv.modalSendButton then
      (true, "Connection request sent successfully")
    else if drv.pendingAfterTimeout then
      (true, "Connection request sent (no modal)")
    else
      (false, "Modal timeout - unclear if request sent")

/-- ConnectionSender.send_connection_with_verification
(connection_sender.py, lines 198-219). -/
def sendConnectionWithVerification (drv : Driver) : Bool × String :=
  match sendConnectionRequest drv with
  | (false, m) => (false, m)
  | (true, _) =>
    if drv.verifyPending then
      (true, "Connection request sent and verified")
    else
      (true, "Connection request sent (verification skipped)")

/-- Counters and ledger threaded through the orchestrator loop
(run_connection_sender.py, lines 181-249). -/
structure RunState where
  ledger : List Entry
  sent_count : Nat
  already_connected_count : Nat
  failed_count : Nat
deriving DecidableEq, Repr

/-- The row the loop hands to tracker.mark_as_sent for a profile at
instant t (run_connection_sender.py, lines 216, 223, 234, 247). -/
def mkEntry (p : Profile) (t : Nat) (status : String) (err : Option String) : Entry :=
  { profile_id := p.poster_profile_id.getD ""
    profile_url := p.poster_profile_url
    poster_name := some p.poster_name
    job_title := some p.job_title
    company := some p.company
    sent_at := t
    status := status
    error_message := err }

/-- One loop body iteration after the quota re-check passed
(run_connection_sender.py, lines 212-249): navigate, inspect the
relationship indicators, then drive the send-with-verification machine,
and record exactly one outcome row. -/
def processTarget (p : Profile) (drv : Driver) (t : Nat) (st : RunState) : RunState :=
  if !drv.navigateOk then
    { st with
      ledger := markAsSent st.ledger (mkEntry p t "failed" (some "Navigation failed"))
      failed_count := st.failed_count + 1 }
  else if isAlreadyConnected drv then
    { st with
      ledger := markAsSent st.ledger (mkEntry p t "already_connected" none)
      already_connected_count := st.already_connected_count + 1 }
  else
    match sendConnectionWithVerification drv with
    | (true, _) =>
      { st with
        ledger := markAsSent st.ledger (mkEntry p t "success" none)
        sent_count := st.sent_count + 1 }
    | (false, msg) =>
      { st with
        ledger := markAsSent st.ledger (mkEntry p t "failed" (some msg))
        failed_count := st.failed_count + 1 }

/-- The retention test of the orchestrator pre-filter
(run_connection_sender.py, line 131): the poster_profile_id is truthy
(present and non-empty) and tracker.already_contacted is false. -/
def keepProfile (db : List Entry) (p : Profile) : Bool :=
  match p.poster_profile_id with
  | none => false
  | some pid => (pid != "") && !(alreadyContacted db pid)

/-- The pre-filter of the orchestrator (run_connection_sender.py, lines
127-135). -/
def filterProfiles (db : List Entry) (profiles : List Profile) : List Profile :=
  profiles.filter (keepProfile db)

/-- The for-loop of run_connection_sender.py, lines 195-249. drvs gives
the driver observations of iteration i; checkTime i is the clock when the
per-iteration can_send_request re-check runs and insertTime i the clock
when the outcome row of that iteration is inserted. A failing re-check
breaks out of the loop. -/
def runLoop (drvs : Nat → Driver) (checkTime insertTime : Nat → Nat)
    (dailyLimit weeklyLimit : Nat) :
    List Profile → Nat → RunState → RunState
  | [], _, st => st
  | p :: rest, i, st =>
    if (canSendRequest st.ledger (checkTime i) dailyLimit weeklyLimit).1 then
      runLoop drvs checkTime insertTime dailyLimit weeklyLimit rest (i + 1)
        (processTarget p (drvs i) (insertTime i) st)
    else
      st

/-- One full run of main in run_connection_sender.py: the up-front
can_send_request gate (line 121), the already-contacted pre-filter
(lines 127-135), the slice to min(len(profiles_to_contact),
daily_remaining) (lines 188-195), then the loop. startTime is the clock
of the up-front checks. -/
def runConnectionSender (drvs : Nat → Driver) (checkTime insertTime : Nat → Nat)
    (dailyLimit weeklyLimit : Nat) (profiles : List Profile)
    (db : List Entry) (startTime : Nat) : RunState :=
  if !(canSendRequest db startTime dailyLimit weeklyLimit).1 then
    { ledger := db, sent_count := 0, already_connected_count := 0, failed_count := 0 }
  else
    let profilesToContact := filterProfiles db profiles
    let status := getQuotaStatus db startTime dailyLimit weeklyLimit
    let maxToSend := Nat.min profilesToContact.length status.daily_remaining
    runLoop drvs checkTime insertTime dailyLimit weeklyLimit
      (profilesToContact.take maxToSend) 0
      { ledger := db, sent_count := 0, already_connected_count := 0, failed_count := 0 }

/-- Number of success rows whose sent_at lies inside the window
[lo, hi]; both bounds inclusive, matching the sent_at >= comparisons of
safety_manager.py. -/
def successCountInWindow (db : List Entry) (lo hi : Nat) : Nat :=
  (db.filter (fun e =>
    decide (lo ≤ e.sent_at) && decide (e.sent_at ≤ hi) && (e.status == "success"))).length

/-- The daily guarantee the code actually provides: at most dailyLimit
success rows between any instant and the local midnight preceding it. -/
def dailyWindowOk (db : List Entry) (dailyLimit : Nat) : Prop :=
  ∀ t, successCountInWindow db (midnight t) t ≤ dailyLimit

/-- The weekly guarantee: at most weeklyLimit success rows in any
trailing 7-day window. -/
def weeklyWindowOk (db : List Entry) (weeklyLimit : Nat) : Prop :=
  ∀ t, successCountInWindow db (t - weekMinutes) t ≤ weeklyLimit

/-- The daily bound as the specification words it: at most dailyLimit
success rows in any trailing 24-hour window. -/
def trailingDayWindowOk (db : List Entry) (dailyLimit : Nat) : Prop :=
  ∀ t, successCountInWindow db (t - dayMinutes) t ≤ dailyLimit


theorem alreadyContacted_iff (db : List Entry) (pid : String) :
    alreadyContacted db pid = true ↔ ∃ e ∈ db, e.profile_id = pid := by
  simp [alreadyContacted, ← List.countP_eq_length_filter, List.countP_pos_iff]

theorem alreadyContacted_eq_any (db : List Entry) (pid : String) :
    alreadyContacted db pid = db.any (fun x => x.profile_id == pid) := by
  rw [Bool.eq_iff_iff, alreadyContacted_iff]
  simp [List.any_eq_true]

theorem markAsSent_eq_or (db : List Entry) (e : Entry) :
    markAsSent db e = db ∨ markAsSent db e = db ++ [e] := by
  unfold markAsSent
  split
  · exact Or.inl rfl
  · exact Or.inr rfl

theorem markAsSent_fresh (db : List Entry) (e : Entry)
    (h : alreadyContacted db e.profile_id = false) :
    markAsSent db e = db ++ [e] := by
  unfold markAsSent
  rw [← alreadyContacted_eq_any, h]
  simp

theorem canSend_true_iff (db : List Entry) (now d w : Nat) :
    (canSendRequest db now d w).1 = true ↔
      getRequestsToday db now < d ∧ getRequestsThisWeek db now < w := by
  simp only [canSendRequest]
  split_ifs with h1 h2 <;> simp <;> omega

theorem midnight_le_self (t : Nat) : midnight t ≤ t := by
  unfold midnight
  rw [Nat.mul_comm]
  exact Nat.div_mul_le_self t dayMinutes

theorem midnight_mono {a b : Nat} (h : a ≤ b) : midnight a ≤ midnight b := by
  unfold midnight
  exact Nat.mul_le_mul (Nat.le_refl _) (Nat.div_le_div_right h)

theorem length_filter_mono {α : Type} (l : List α) (p q : α → Bool)
    (h : ∀ x ∈ l, p x = true → q x = true) :
    (l.filter p).length ≤ (l.filter q).length := by
  induction l with
  | nil => simp
  | cons a rest ih =>
    have hrest : ∀ x ∈ rest, p x = true → q x = true :=
      fun x hx => h x (List.mem_cons_of_mem _ hx)
    by_cases hp : p a = true
    · have hq := h a (List.mem_cons_self _ _) hp
      simp only [List.filter_cons, hp, hq, if_true, List.length_cons]
      exact Nat.succ_le_succ (ih hrest)
    · rw [Bool.not_eq_true] at hp
      simp only [List.filter_cons, hp]
      cases hq : q a
      · simp only [Bool.false_eq_true, if_false]
        exact ih hrest
      · simp only [if_true, List.length_cons]
        exact Nat.le_succ_of_le (ih hrest)

theorem successCountInWindow_append (db : List Entry) (e : Entry) (lo hi : Nat) :
    successCountInWindow (db ++ [e]) lo hi =
      successCountInWindow db lo hi +
        (if lo ≤ e.sent_at ∧ e.sent_at ≤ hi ∧ e.status = "success" then 1 else 0) := by
  unfold successCountInWindow
  rw [List.filter_append, List.length_append]
  congr 1
  by_cases h : lo ≤ e.sent_at ∧ e.sent_at ≤ hi ∧ e.status = "success"
  · rw [if_pos h]
    have hpred : (decide (lo ≤ e.sent_at) && decide (e.sent_at ≤ hi) &&
        (e.status == "success")) = true := by
      simp [h.1, h.2.1, h.2.2]
    simp [List.filter_cons, hpred]
  · rw [if_neg h]
    have hpred : (decide (lo ≤ e.sent_at) && decide (e.sent_at ≤ hi) &&
        (e.status == "success")) = false := by
      rw [Bool.eq_false_iff]
      intro hc
      simp only [Bool.and_eq_true, decide_eq_true_eq, beq_iff_eq] at hc
      exact h ⟨hc.1.1, hc.1.2, hc.2⟩
    simp [List.filter_cons, hpred]

theorem successCount_le_today (db : List Entry) (ctime t : Nat)
    (hct : ctime ≤ t) :
    successCountInWindow db (midnight t) t ≤ getRequestsToday db ctime := by
  unfold successCountInWindow getRequestsToday
  apply length_filter_mono
  intro x hx hpx
  simp only [Bool.and_eq_true, decide_eq_true_eq, beq_iff_eq] at hpx ⊢
  exact ⟨le_trans (midnight_mono hct) hpx.1.1, hpx.2⟩

theorem successCount_le_week (db : List Entry) (ctime t : Nat)
    (hct : ctime ≤ t) :
    successCountInWindow db (t - weekMinutes) t ≤ getRequestsThisWeek db ctime := by
  unfold successCountInWindow getRequestsThisWeek
  apply length_filter_mono
  intro x hx hpx
  simp only [Bool.and_eq_true, decide_eq_true_eq, beq_iff_eq] at hpx ⊢
  exact ⟨le_trans (Nat.sub_le_sub_right hct _) hpx.1.1, hpx.2⟩

theorem insert_preserves_daily (db : List Entry) (d ctime : Nat) (e : Entry)
    (hci : ctime ≤ e.sent_at)
    (hcheck : getRequestsToday db ctime < d)
    (hold : dailyWindowOk db d) :
    dailyWindowOk (db ++ [e]) d := by
  intro t
  rw [successCountInWindow_append]
  by_cases h : midnight t ≤ e.sent_at ∧ e.sent_at ≤ t ∧ e.status = "success"
  · rw [if_pos h]
    have htct : ctime ≤ t := le_trans hci h.2.1
    have := successCount_le_today db ctime t htct
    omega
  · rw [if_neg h]
    simpa using hold t

theorem insert_preserves_weekly (db : List Entry) (w ctime : Nat) (e : Entry)
    (hci : ctime ≤ e.sent_at)
    (hcheck : getRequestsThisWeek db ctime < w)
    (hold : weeklyWindowOk db w) :
    weeklyWindowOk (db ++ [e]) w := by
  intro t
  rw [successCountInWindow_append]
  by_cases h : t - weekMinutes ≤ e.sent_at ∧ e.sent_at ≤ t ∧ e.status = "success"
  · rw [if_pos h]
    have htct : ctime ≤ t := le_trans hci h.2.1
    have := successCount_le_week db ctime t htct
    omega
  · rw [if_neg h]
    simpa using hold t

theorem processTarget_ledger_shape (p : Profile) (drv : Driver) (t : Nat) (st : RunState) :
    ∃ e : Entry, e.sent_at = t ∧ (processTarget p drv t st).ledger = markAsSent st.ledger e := by
  unfold processTarget
  split
  · exact ⟨mkEntry p t "failed" (some "Navigation failed"), rfl, rfl⟩
  split
  · exact ⟨mkEntry p t "already_connected" none, rfl, rfl⟩
  split
  · exact ⟨mkEntry p t "success" none, rfl, rfl⟩
  · next msg _ => exact ⟨mkEntry p t "failed" (some msg), rfl, rfl⟩

theorem step_preserves (db : List Entry) (d w ctime : Nat) (e : Entry)
    (hci : ctime ≤ e.sent_at)
    (hguard : (canSendRequest db ctime d w).1 = true)
    (hd : dailyWindowOk db d) (hw : weeklyWindowOk db w) :
    dailyWindowOk (markAsSent db e) d ∧ weeklyWindowOk (markAsSent db e) w := by
  have hcheck := (canSend_true_iff db ctime d w).mp hguard
  rcases markAsSent_eq_or db e with h | h <;> rw [h]
  · exact ⟨hd, hw⟩
  · exact ⟨insert_preserves_daily db d ctime e hci hcheck.1 hd,
      insert_preserves_weekly db w ctime e hci hcheck.2 hw⟩

theorem runLoop_preserves (drvs : Nat → Driver) (checkTime insertTime : Nat → Nat)
    (d w : Nat) (hcit : ∀ j, checkTime j ≤ insertTime j)
    (L : List Profile) :
    ∀ (i : Nat) (st : RunState),
      dailyWindowOk st.ledger d → weeklyWindowOk st.ledger w →
      dailyWindowOk (runLoop drvs checkTime insertTime d w L i st).ledger d ∧
      weeklyWindowOk (runLoop drvs checkTime insertTime d w L i st).ledger w := by
  induction L with
  | nil => intro i st hd hw; exact ⟨hd, hw⟩
  | cons p rest ih =>
    intro i st hd hw
    rw [runLoop]
    split
    · next hguard =>
      obtain ⟨e, het, hledger⟩ := processTarget_ledger_shape p (drvs i) (insertTime i) st
      have hstep := step_preserves st.ledger d w (checkTime i) e
        (het ▸ hcit i) hguard hd hw
      apply ih
      · rw [hledger]; exact hstep.1
      · rw [hledger]; exact hstep.2
    · exact ⟨hd, hw⟩

/-- A driver run in which every interaction succeeds with the modal
confirmation observed. -/
def goodDriver : Driver :=
  { navigateOk := true, messageButton := false, pendingButton := false,
    pendingText := false, connectButton := true, modalSendButton := true,
    pendingAfterTimeout := false, verifyPending := true, interactionError := none }

/-- A minimal input record with the given profile id. -/
def mkProfile (pid : String) : Profile :=
  { poster_profile_id := some pid
    poster_profile_url := "https://www.linkedin.com/in/" ++ pid ++ "/"
    poster_name := "N", job_title := "T", company := "C" }

/-- Ledger left by an evening run: daily_limit 2, weekly_limit 80, two
targets, starting at minute 1320 of day 0 (22:00), successes recorded at
22:00 and 23:00. -/
def ledgerRun1 : List Entry :=
  (runConnectionSender (fun _ => goodDriver) (fun i => 1320 + 60 * i) (fun i => 1320 + 60 * i)
    2 80 [mkProfile "a", mkProfile "b"] [] 1320).ledger

/-- Ledger after a second run the following morning over the ledger the
evening run left: starting at minute 1500 (01:00 of day 1), successes
recorded at 01:00 and 02:00. -/
def ledgerRun2 : List Entry :=
  (runConnectionSender (fun _ => goodDriver) (fun i => 1500 + 60 * i) (fun i => 1500 + 60 * i)
    2 80 [mkProfile "c", mkProfile "d"] ledgerRun1 1500).ledger

/-- Claim C1 counterexample: the daily gate counts successes since local
midnight, not over a trailing 24-hour window, so an evening run followed
by an early-morning run puts four successes (22:00, 23:00, 01:00, 02:00)
inside the trailing 24-hour window ending at 02:00 of day 1 while
daily_limit is 2: the trailing-24-hour bound of the claim is violated. -/
theorem c1_counterexample :
    successCountInWindow ledgerRun2 (1560 - dayMinutes) 1560 = 4 ∧
    ¬ trailingDayWindowOk ledgerRun2 2 := by
  constructor
  · decide
  · intro h
    have h4 : successCountInWindow ledgerRun2 (1560 - dayMinutes) 1560 = 4 := by decide
    have hle := h 1560
    omega

/-- Claim C1, amended: for every run of the orchestrator loop whose
per-iteration quota re-check happens no later than the insert of that
iteration, if the starting ledger has at most daily_limit successes in
every local-calendar-day window and at most weekly_limit successes in
every trailing 7-day window, then the final ledger does too. The daily
bound is the since-midnight window the code enforces, not the trailing
24-hour window of the original claim; the weekly trailing window holds
as claimed. -/
theorem c1_run_window_invariant (drvs : Nat → Driver) (checkTime insertTime : Nat → Nat)
    (d w : Nat) (profiles : List Profile) (db : List Entry) (startTime : Nat)
    (hcit : ∀ j, checkTime j ≤ insertTime j)
    (hd : dailyWindowOk db d) (hw : weeklyWindowOk db w) :
    dailyWindowOk (runConnectionSender drvs checkTime insertTime d w profiles db startTime).ledger d ∧
    weeklyWindowOk (runConnectionSender drvs checkTime insertTime d w profiles db startTime).ledger w := by
  unfold runConnectionSender
  split
  · exact ⟨hd, hw⟩
  · exact runLoop_preserves drvs checkTime insertTime d w hcit _ 0 _ hd hw

/-- Witness for the amended claim C1 at a concrete run. -/
theorem c1_witness : dailyWindowOk ledgerRun1 2 ∧ weeklyWindowOk ledgerRun1 80 :=
  c1_run_window_invariant (fun _ => goodDriver) (fun i => 1320 + 60 * i)
    (fun i => 1320 + 60 * i) 2 80 [mkProfile "a", mkProfile "b"] [] 1320
    (fun _ => Nat.le_refl _)
    (fun t => by simp [successCountInWindow])
    (fun t => by simp [successCountInWindow])

/-- Claim C2: can_send_request returns allowed = false exactly when the
count of successes since midnight reaches daily_limit or the trailing-week count
reaches weekly_limit; the reason string names the limit that blocked,
the daily gate checked first; equality to the limit blocks. -/
theorem c2_can_send_boundary (db : List Entry) (now d w : Nat) :
    ((canSendRequest db now d w).1 = false ↔
      (d ≤ getRequestsToday db now ∨ w ≤ getRequestsThisWeek db now)) ∧
    (d ≤ getRequestsToday db now →
      canSendRequest db now d w =
        (false, "Daily limit reached (" ++ toString (getRequestsToday db now) ++ "/" ++
          toString d ++ ")")) ∧
    (getRequestsToday db now < d → w ≤ getRequestsThisWeek db now →
      canSendRequest db now d w =
        (false, "Weekly limit reached (" ++ toString (getRequestsThisWeek db now) ++ "/" ++
          toString w ++ ")")) ∧
    (getRequestsToday db now < d → getRequestsThisWeek db now < w →
      canSendRequest db now d w = (true, "OK")) := by
  refine ⟨?_, ?_, ?_, ?_⟩
  · simp only [canSendRequest]
    split_ifs with h1 h2 <;> simp <;> omega
  · intro h
    simp only [canSendRequest]
    rw [if_pos h]
  · intro h1 h2
    simp only [canSendRequest]
    rw [if_neg (by omega), if_pos h2]
  · intro h1 h2
    simp only [canSendRequest]
    rw [if_neg (by omega), if_neg (by omega)]

/-- Ledger with two successes recorded today (daily boundary case). -/
def twoToday : List Entry :=
  [mkEntry (mkProfile "a") 100 "success" none, mkEntry (mkProfile "b") 200 "success" none]

/-- Ledger with one success recorded today. -/
def oneToday : List Entry := [mkEntry (mkProfile "a") 100 "success" none]

/-- Witness for claim C2: with daily_limit 2 and exactly two successes
today the gate blocks with the daily reason; with one success it is open. -/
theorem c2_witness :
    canSendRequest twoToday 300 2 80 =
      (false, "Daily limit reached (" ++ toString (getRequestsToday twoToday 300) ++ "/" ++
        toString 2 ++ ")") ∧
    canSendRequest oneToday 300 2 80 = (true, "OK") :=
  ⟨(c2_can_send_boundary twoToday 300 2 80).2.1 (by decide),
    (c2_can_send_boundary oneToday 300 2 80).2.2.2 (by decide) (by decide)⟩

/-- Claim C3: recording twice under the same profile_id leaves exactly
one row for that id, carrying the values of the first call; the second insert
is a silent no-op (the model is a total function: the IntegrityError is
swallowed inside mark_as_sent and nothing is raised to the caller). -/
theorem c3_idempotent_record (db : List Entry) (e1 e2 : Entry)
    (h1 : alreadyContacted db e1.profile_id = false)
    (h2 : e2.profile_id = e1.profile_id) :
    markAsSent (markAsSent db e1) e2 = db ++ [e1] ∧
    (markAsSent (markAsSent db e1) e2).filter
      (fun x => x.profile_id == e1.profile_id) = [e1] := by
  have hfresh : markAsSent db e1 = db ++ [e1] := markAsSent_fresh db e1 h1
  have hmem : (db ++ [e1]).any (fun x => x.profile_id == e2.profile_id) = true := by
    simp [List.any_append, h2]
  have hnoop : markAsSent (db ++ [e1]) e2 = db ++ [e1] := by
    unfold markAsSent
    rw [if_pos hmem]
  have hdbnil : db.filter (fun x => x.profile_id == e1.profile_id) = [] := by
    unfold alreadyContacted at h1
    simp only [decide_eq_false_iff_not, Nat.not_lt, Nat.le_zero] at h1
    exact List.length_eq_zero.mp h1
  refine ⟨by rw [hfresh, hnoop], ?_⟩
  rw [hfresh, hnoop, List.filter_append, hdbnil]
  simp

/-- First record for profile id a. -/
def entryFirst : Entry := mkEntry (mkProfile "a") 10 "success" none

/-- Second, conflicting record for the same profile id. -/
def entrySecond : Entry := mkEntry (mkProfile "a") 20 "failed" (some "boom")

/-- Witness for claim C3 at concrete entries. -/
theorem c3_witness :
    markAsSent (markAsSent [] entryFirst) entrySecond = [] ++ [entryFirst] ∧
    (markAsSent (markAsSent [] entryFirst) entrySecond).filter
      (fun x => x.profile_id == entryFirst.profile_id) = [entryFirst] :=
  c3_idempotent_record [] entryFirst entrySecond (by decide) (by decide)

/-- Claim C4: already_contacted is true exactly when some row exists for
the id, whatever its status; and a batch of N already-ledgered targets
followed by M fresh ones is filtered down to exactly the M fresh ones. -/
theorem c4_dedup_filter (db : List Entry) (pid : String) (priors news : List Profile)
    (hp : ∀ p ∈ priors, ∃ q, p.poster_profile_id = some q ∧ alreadyContacted db q = true)
    (hn : ∀ p ∈ news, ∃ q, p.poster_profile_id = some q ∧ q ≠ "" ∧
      alreadyContacted db q = false) :
    (alreadyContacted db pid = true ↔ ∃ e ∈ db, e.profile_id = pid) ∧
    filterProfiles db (priors ++ news) = news ∧
    (filterProfiles db (priors ++ news)).length = news.length := by
  have hpriors : priors.filter (keepProfile db) = [] := by
    rw [List.filter_eq_nil_iff]
    intro p hp0
    obtain ⟨q, hq, hc⟩ := hp p hp0
    simp [keepProfile, hq, hc]
  have hnews : news.filter (keepProfile db) = news := by
    rw [List.filter_eq_self]
    intro p hp0
    obtain ⟨q, hq, hne, hc⟩ := hn p hp0
    simp [keepProfile, hq, hc, hne]
  have hfil : filterProfiles db (priors ++ news) = news := by
    unfold filterProfiles
    rw [List.filter_append, hpriors, hnews, List.nil_append]
  exact ⟨alreadyContacted_iff db pid, hfil, by rw [hfil]⟩

/-- A ledgered failed attempt for profile id a. -/
def failedEntryA : Entry := mkEntry (mkProfile "a") 50 "failed" (some "Navigation failed")

/-- Witness for claim C4: one prior row (status failed, still blocking)
and two fresh targets; the filter retains exactly the two fresh ones. -/
theorem c4_witness :
    (alreadyContacted [failedEntryA] "a" = true ↔
      ∃ e ∈ [failedEntryA], e.profile_id = "a") ∧
    filterProfiles [failedEntryA] ([mkProfile "a"] ++ [mkProfile "b", mkProfile "c"]) =
      [mkProfile "b", mkProfile "c"] ∧
    (filterProfiles [failedEntryA]
      ([mkProfile "a"] ++ [mkProfile "b", mkProfile "c"])).length =
      ([mkProfile "b", mkProfile "c"] : List Profile).length :=
  c4_dedup_filter [failedEntryA] "a" [mkProfile "a"] [mkProfile "b", mkProfile "c"]
    (by
      intro p hp
      simp only [List.mem_singleton] at hp
      subst hp
      exact ⟨"a", rfl, by decide⟩)
    (by
      intro p hp
      simp only [List.mem_cons, List.not_mem_nil, or_false] at hp
      rcases hp with h | h <;> subst h
      · exact ⟨"b", rfl, by decide, by decide⟩
      · exact ⟨"c", rfl, by decide, by decide⟩)

theorem quota_can_send_iff (db : List Entry) (now d w : Nat) :
    (getQuotaStatus db now d w).can_send = true ↔
      getRequestsToday db now < d ∧ getRequestsThisWeek db now < w := by
  simp [getQuotaStatus]

/-- Claim C10: the can_send field of get_quota_status agrees with
can_send_request on every ledger state, and holds exactly when both
remaining quotas are positive. -/
theorem c10_quota_equiv (db : List Entry) (now d w : Nat) :
    (getQuotaStatus db now d w).can_send = (canSendRequest db now d w).1 ∧
    ((getQuotaStatus db now d w).can_send = true ↔
      0 < (getQuotaStatus db now d w).daily_remaining ∧
      0 < (getQuotaStatus db now d w).weekly_remaining) := by
  constructor
  · rw [Bool.eq_iff_iff, quota_can_send_iff, canSend_true_iff]
  · rw [quota_can_send_iff]
    simp only [getQuotaStatus]
    omega

/-- The number of attempts the loop has started: each iteration that
passes the quota re-check increments exactly one of the three counters
of run_connection_sender.py. -/
def totalAttempts (st : RunState) : Nat :=
  st.sent_count + st.already_connected_count + st.failed_count

theorem processTarget_total (p : Profile) (drv : Driver) (t : Nat) (st : RunState) :
    totalAttempts (processTarget p drv t st) = totalAttempts st + 1 := by
  unfold processTarget
  repeat' split
  all_goals simp [totalAttempts]
  all_goals omega

theorem runLoop_total_le (drvs : Nat → Driver) (checkTime insertTime : Nat → Nat)
    (d w : Nat) (L : List Profile) : ∀ (i : Nat) (st : RunState),
    totalAttempts (runLoop drvs checkTime insertTime d w L i st) ≤
      totalAttempts st + L.length := by
  induction L with
  | nil => intro i st; simp [runLoop]
  | cons p rest ih =>
    intro i st
    rw [runLoop]
    split
    · have h := ih (i + 1) (processTarget p (drvs i) (insertTime i) st)
      rw [processTarget_total] at h
      simp only [List.length_cons]
      omega
    · simp only [List.length_cons]
      omega

/-- Scenario A run: daily_limit 2, weekly_limit 80, three fresh targets,
every attempt succeeding. -/
def scenarioARun : RunState :=
  runConnectionSender (fun _ => goodDriver) (fun i => 600 + 60 * i) (fun i => 600 + 60 * i)
    2 80 [mkProfile "a", mkProfile "b", mkProfile "c"] [] 600

/-- Claim C5: the loop starts at most min(len(retained), daily_remaining)
attempts, re-checks can_send_request immediately before each attempt,
stops at the first failing re-check, and in Scenario A (daily_limit 2,
three retained targets, first two succeed) the third attempt is never
started and no row for the third target is written. -/
theorem c5_budget_and_stop :
    (∀ (drvs : Nat → Driver) (checkTime insertTime : Nat → Nat) (d w : Nat)
        (profiles : List Profile) (db : List Entry) (start : Nat),
      totalAttempts (runConnectionSender drvs checkTime insertTime d w profiles db start) ≤
        Nat.min (filterProfiles db profiles).length
          (getQuotaStatus db start d w).daily_remaining) ∧
    (∀ (drvs : Nat → Driver) (checkTime insertTime : Nat → Nat) (d w : Nat)
        (p : Profile) (rest : List Profile) (i : Nat) (st : RunState),
      (canSendRequest st.ledger (checkTime i) d w).1 = false →
      runLoop drvs checkTime insertTime d w (p :: rest) i st = st) ∧
    (∀ (drvs : Nat → Driver) (checkTime insertTime : Nat → Nat) (d w : Nat)
        (p : Profile) (rest : List Profile) (i : Nat) (st : RunState),
      (canSendRequest st.ledger (checkTime i) d w).1 = true →
      runLoop drvs checkTime insertTime d w (p :: rest) i st =
        runLoop drvs checkTime insertTime d w rest (i + 1)
          (processTarget p (drvs i) (insertTime i) st)) ∧
    (scenarioARun.sent_count = 2 ∧ totalAttempts scenarioARun = 2 ∧
      alreadyContacted scenarioARun.ledger "c" = false) := by
  refine ⟨?_, ?_, ?_, ?_⟩
  · intro drvs checkTime insertTime d w profiles db start
    unfold runConnectionSender
    split
    · simp [totalAttempts]
    · dsimp only
      have h := runLoop_total_le drvs checkTime insertTime d w
        ((filterProfiles db profiles).take
          (Nat.min (filterProfiles db profiles).length
            (getQuotaStatus db start d w).daily_remaining)) 0
        { ledger := db, sent_count := 0, already_connected_count := 0, failed_count := 0 }
      simp only [totalAttempts, List.length_take] at h ⊢
      omega
  · intro drvs checkTime insertTime d w p rest i st h
    simp [runLoop, h]
  · intro drvs checkTime insertTime d w p rest i st h
    simp [runLoop, h]
  · refine ⟨by decide, by decide, by decide⟩

/-- Witness for claim C5: with daily_limit 0 the very first re-check
fails and the loop stops without touching its target. -/
theorem c5_witness :
    runLoop (fun _ => goodDriver) (fun _ => 0) (fun _ => 0) 0 80 [mkProfile "a"] 0
      { ledger := [], sent_count := 0, already_connected_count := 0, failed_count := 0 } =
      { ledger := [], sent_count := 0, already_connected_count := 0, failed_count := 0 } :=
  c5_budget_and_stop.2.1 (fun _ => goodDriver) (fun _ => 0) (fun _ => 0) 0 80
    (mkProfile "a") [] 0 _ (by decide)

theorem listMinNat_cons_isSome (x : Nat) (xs : List Nat) :
    (listMinNat (x :: xs)).isSome = true := by
  simp only [listMinNat]
  cases listMinNat xs <;> simp

/-- Claim C6: with both gates open the suggestion is to run now; when
the daily gate blocks it is the next local midnight; when only the
weekly gate blocks it is the sent_at of the oldest windowed success plus
seven days, and such an oldest success exists whenever the weekly gate
blocks with a positive limit. -/
theorem c6_next_eligible (db : List Entry) (now d w t0 : Nat) :
    (getRequestsToday db now < d → getRequestsThisWeek db now < w →
      suggestNextRunTime db now d w = Suggestion.runNow) ∧
    (d ≤ getRequestsToday db now →
      suggestNextRunTime db now d w = Suggestion.dailyReset (midnight now + dayMinutes)) ∧
    (getRequestsToday db now < d → w ≤ getRequestsThisWeek db now →
      oldestSuccessThisWeek db now = some t0 →
      suggestNextRunTime db now d w = Suggestion.weeklyReset (t0 + weekMinutes)) ∧
    (1 ≤ w → w ≤ getRequestsThisWeek db now →
      (oldestSuccessThisWeek db now).isSome = true) := by
  refine ⟨?_, ?_, ?_, ?_⟩
  · intro h1 h2
    simp only [suggestNextRunTime, getQuotaStatus]
    rw [if_pos ⟨by omega, by omega⟩]
  · intro h
    simp only [suggestNextRunTime, getQuotaStatus, getDailyResetTime]
    split_ifs <;> first | rfl | omega
  · intro hd hw hO
    simp only [suggestNextRunTime, getQuotaStatus]
    split_ifs
    all_goals first | omega | rw [hO]
  · intro hw1 hw2
    unfold getRequestsThisWeek at hw2
    unfold oldestSuccessThisWeek
    cases hl : db.filter
        (fun e => decide (now - weekMinutes ≤ e.sent_at) && (e.status == "success")) with
    | nil => rw [hl] at hw2; simp at hw2; omega
    | cons a as =>
      simp only [List.map_cons]
      exact listMinNat_cons_isSome _ _

/-- Witness for claim C6 at concrete ledgers: weekly-blocked with the
oldest windowed success at minute 100, daily-blocked, and both open. -/
theorem c6_witness :
    suggestNextRunTime oneToday 200 5 1 = Suggestion.weeklyReset (100 + weekMinutes) ∧
    suggestNextRunTime twoToday 300 2 80 =
      Suggestion.dailyReset (midnight 300 + dayMinutes) ∧
    suggestNextRunTime [] 200 2 80 = Suggestion.runNow :=
  ⟨(c6_next_eligible oneToday 200 5 1 100).2.2.1 (by decide) (by decide) (by decide),
   (c6_next_eligible twoToday 300 2 80 0).2.1 (by decide),
   (c6_next_eligible [] 200 2 80 0).1 (by decide) (by decide)⟩

/-- The empty run state the orchestrator starts from. -/
def emptyRunState : RunState :=
  { ledger := [], sent_count := 0, already_connected_count := 0, failed_count := 0 }

/-- Claim C7: after the action is invoked, a modal-wait timeout with the
alternate Pending indicator observed yields outcome success (recorded
with status success; with verification also failing the message marks
the unverified completion), while a timeout with no indicator at all
yields the ambiguous-timeout failure, recorded with status failed. -/
theorem c7_ambiguous_timeout (drv : Driver) (p : Profile) (t : Nat) (st : RunState)
    (hn : drv.navigateOk = true) (ha : isAlreadyConnected drv = false)
    (he : drv.interactionError = none) (hc : drv.connectButton = true)
    (hm : drv.modalSendButton = false)
    (hfresh : alreadyContacted st.ledger (p.poster_profile_id.getD "") = false) :
    (drv.pendingAfterTimeout = true →
      sendConnectionRequest drv = (true, "Connection request sent (no modal)") ∧
      (sendConnectionWithVerification drv).1 = true ∧
      (processTarget p drv t st).ledger = st.ledger ++ [mkEntry p t "success" none] ∧
      (mkEntry p t "success" none).status = "success" ∧
      (processTarget p drv t st).sent_count = st.sent_count + 1) ∧
    (drv.pendingAfterTimeout = true → drv.verifyPending = false →
      sendConnectionWithVerification drv =
        (true, "Connection request sent (verification skipped)")) ∧
    (drv.pendingAfterTimeout = false →
      sendConnectionRequest drv = (false, "Modal timeout - unclear if request sent") ∧
      (processTarget p drv t st).ledger =
        st.ledger ++ [mkEntry p t "failed"
          (some "Modal timeout - unclear if request sent")] ∧
      (processTarget p drv t st).failed_count = st.failed_count + 1) := by
  refine ⟨?_, ?_, ?_⟩
  · intro hp
    have hscr : sendConnectionRequest drv = (true, "Connection request sent (no modal)") := by
      simp [sendConnectionRequest, he, hc, hm, hp]
    have hv1 : (sendConnectionWithVerification drv).1 = true := by
      cases hv : drv.verifyPending <;> simp [sendConnectionWithVerification, hscr, hv]
    have hpt : processTarget p drv t st =
        { st with
            ledger := markAsSent st.ledger (mkEntry p t "success" none),
            sent_count := st.sent_count + 1 } := by
      cases hv : drv.verifyPending <;>
        simp [processTarget, hn, ha, sendConnectionWithVerification, hscr, hv]
    refine ⟨hscr, hv1, ?_, rfl, ?_⟩
    · rw [hpt]
      exact markAsSent_fresh st.ledger _ hfresh
    · rw [hpt]
  · intro hp hv
    have hscr : sendConnectionRequest drv = (true, "Connection request sent (no modal)") := by
      simp [sendConnectionRequest, he, hc, hm, hp]
    simp [sendConnectionWithVerification, hscr, hv]
  · intro hp
    have hscr : sendConnectionRequest drv =
        (false, "Modal timeout - unclear if request sent") := by
      simp [sendConnectionRequest, he, hc, hm, hp]
    have hpt : processTarget p drv t st =
        { st with
            ledger := markAsSent st.ledger
              (mkEntry p t "failed" (some "Modal timeout - unclear if request sent")),
            failed_count := st.failed_count + 1 } := by
      simp [processTarget, hn, ha, sendConnectionWithVerification, hscr]
    refine ⟨hscr, ?_, ?_⟩
    · rw [hpt]
      exact markAsSent_fresh st.ledger _ hfresh
    · rw [hpt]

/-- Driver whose modal wait times out but whose Pending marker appears. -/
def timeoutPendingDriver : Driver :=
  { goodDriver with
    modalSendButton := false, pendingAfterTimeout := true,
    verifyPending := false }

/-- Driver whose modal wait times out with no indicator at all. -/
def timeoutNoPendingDriver : Driver :=
  { goodDriver with modalSendButton := false, pendingAfterTimeout := false }

/-- Witness for claim C7 at the two timeout drivers. -/
theorem c7_witness :
    (sendConnectionWithVerification timeoutPendingDriver).1 = true ∧
    (processTarget (mkProfile "a") timeoutPendingDriver 5 emptyRunState).ledger =
      emptyRunState.ledger ++ [mkEntry (mkProfile "a") 5 "success" none] ∧
    sendConnectionWithVerification timeoutPendingDriver =
      (true, "Connection request sent (verification skipped)") ∧
    sendConnectionRequest timeoutNoPendingDriver =
      (false, "Modal timeout - unclear if request sent") ∧
    (processTarget (mkProfile "a") timeoutNoPendingDriver 5 emptyRunState).failed_count =
      emptyRunState.failed_count + 1 := by
  have h1 := c7_ambiguous_timeout timeoutPendingDriver (mkProfile "a") 5 emptyRunState
    rfl rfl rfl rfl rfl (by decide)
  have h2 := c7_ambiguous_timeout timeoutNoPendingDriver (mkProfile "a") 5 emptyRunState
    rfl rfl rfl rfl rfl (by decide)
  exact ⟨(h1.1 rfl).2.1, (h1.1 rfl).2.2.1, h1.2.1 rfl rfl, (h2.2.2 rfl).1, (h2.2.2 rfl).2.2⟩

/-- Claim C8: when the driver reports an existing or pending
relationship, the outcome is recorded as already_connected and the
action-invocation observables of the driver are never consulted: the
result is invariant under every choice of connect-button, modal, pending
and exception observations. -/
theorem c8_already_related (drv : Driver) (p : Profile) (t : Nat) (st : RunState)
    (hn : drv.navigateOk = true) (ha : isAlreadyConnected drv = true)
    (hfresh : alreadyContacted st.ledger (p.poster_profile_id.getD "") = false) :
    (processTarget p drv t st).ledger =
      st.ledger ++ [mkEntry p t "already_connected" none] ∧
    (mkEntry p t "already_connected" none).status = "already_connected" ∧
    (processTarget p drv t st).already_connected_count =
      st.already_connected_count + 1 ∧
    (∀ (cb ms pat vp : Bool) (ie : Option String),
      processTarget p
        { drv with
          connectButton := cb, modalSendButton := ms,
          pendingAfterTimeout := pat, verifyPending := vp,
          interactionError := ie } t st =
        processTarget p drv t st) := by
  have hpt : processTarget p drv t st =
      { st with
          ledger := markAsSent st.ledger (mkEntry p t "already_connected" none),
          already_connected_count := st.already_connected_count + 1 } := by
    simp [processTarget, hn, ha]
  refine ⟨?_, rfl, ?_, ?_⟩
  · rw [hpt]
    exact markAsSent_fresh st.ledger _ hfresh
  · rw [hpt]
  · intro cb ms pat vp ie
    have hmpp : (drv.messageButton || drv.pendingButton || drv.pendingText) = true := ha
    rw [hpt]
    simp [processTarget, isAlreadyConnected, hn, hmpp]

/-- Witness for claim C8: already-related driver, fresh target. -/
theorem c8_witness :
    (processTarget (mkProfile "a")
      { goodDriver with pendingButton := true } 5 emptyRunState).ledger =
      emptyRunState.ledger ++ [mkEntry (mkProfile "a") 5 "already_connected" none] ∧
    (processTarget (mkProfile "a")
      { goodDriver with pendingButton := true } 5 emptyRunState).already_connected_count =
      emptyRunState.already_connected_count + 1 := by
  have h := c8_already_related { goodDriver with pendingButton := true }
    (mkProfile "a") 5 emptyRunState rfl rfl (by decide)
  exact ⟨h.1, h.2.2.1⟩

/-- Claim C9: the send machine reports failure exactly in the three
non-navigation failure modes (unexpected interaction exception, missing
connect control, ambiguous timeout with no indicator), and every
per-target failure, navigation included, makes the loop record one
failed row with an error message and proceed to the next target: the
iteration is a total function that recurses on the rest of the list
instead of raising. -/
theorem c9_failures_recorded :
    (∀ drv : Driver,
      (sendConnectionWithVerification drv).1 = false ↔
        (drv.interactionError.isSome = true ∨
         (drv.interactionError = none ∧ drv.connectButton = false) ∨
         (drv.interactionError = none ∧ drv.connectButton = true ∧
          drv.modalSendButton = false ∧ drv.pendingAfterTimeout = false))) ∧
    (∀ (drvs : Nat → Driver) (checkTime insertTime : Nat → Nat) (d w : Nat)
        (p : Profile) (rest : List Profile) (i : Nat) (st : RunState),
      ((drvs i).navigateOk = false ∨
        ((drvs i).navigateOk = true ∧ isAlreadyConnected (drvs i) = false ∧
         (sendConnectionWithVerification (drvs i)).1 = false)) →
      (canSendRequest st.ledger (checkTime i) d w).1 = true →
      ∃ msg : String,
        runLoop drvs checkTime insertTime d w (p :: rest) i st =
          runLoop drvs checkTime insertTime d w rest (i + 1)
            { st with
              ledger := markAsSent st.ledger
                (mkEntry p (insertTime i) "failed" (some msg)),
              failed_count := st.failed_count + 1 }) := by
  constructor
  · intro drv
    obtain ⟨nav, mb, pb, ptx, cb0, ms0, pat0, vp0, ie0⟩ := drv
    cases ie0 <;> cases cb0 <;> cases ms0 <;> cases pat0 <;> cases vp0 <;>
      simp [sendConnectionWithVerification, sendConnectionRequest]
  · intro drvs checkTime insertTime d w p rest i st hfail hcan
    rcases hfail with hnav | ⟨hnav, halready, hsend⟩
    · refine ⟨"Navigation failed", ?_⟩
      have hpt : processTarget p (drvs i) (insertTime i) st =
          { st with
            ledger := markAsSent st.ledger
              (mkEntry p (insertTime i) "failed" (some "Navigation failed")),
            failed_count := st.failed_count + 1 } := by
        simp [processTarget, hnav]
      rw [runLoop, if_pos hcan, hpt]
    · rcases hres : sendConnectionWithVerification (drvs i) with ⟨b, m⟩
      rw [hres] at hsend
      simp at hsend
      subst hsend
      refine ⟨m, ?_⟩
      have hpt : processTarget p (drvs i) (insertTime i) st =
          { st with
            ledger := markAsSent st.ledger
              (mkEntry p (insertTime i) "failed" (some m)),
            failed_count := st.failed_count + 1 } := by
        simp [processTarget, hnav, halready, hres]
      rw [runLoop, if_pos hcan, hpt]

/-- Driver whose navigation fails. -/
def navFailDriver : Driver := { goodDriver with navigateOk := false }

/-- Witness for claim C9: a navigation failure is recorded as a failed
row and the loop moves on to the (empty) remainder of the batch. -/
theorem c9_witness :
    ∃ msg : String,
      runLoop (fun _ => navFailDriver) (fun _ => 0) (fun _ => 0) 1 1
        [mkProfile "a"] 0 emptyRunState =
      runLoop (fun _ => navFailDriver) (fun _ => 0) (fun _ => 0) 1 1 [] 1
        { emptyRunState with
          ledger := markAsSent emptyRunState.ledger
            (mkEntry (mkProfile "a") 0 "failed" (some msg)),
          failed_count := emptyRunState.failed_count + 1 } :=
  c9_failures_recorded.2 (fun _ => navFailDriver) (fun _ => 0) (fun _ => 0) 1 1
    (mkProfile "a") [] 0 emptyRunState (Or.inl rfl) (by decide)

/-- Witness for claim C10 at a concrete ledger. -/
theorem c10_witness :
    (getQuotaStatus twoToday 300 2 80).can_send = (canSendRequest twoToday 300 2 80).1 ∧
    ((getQuotaStatus oneToday 300 2 80).can_send = true ↔
      0 < (getQuotaStatus oneToday 300 2 80).daily_remaining ∧
      0 < (getQuotaStatus oneToday 300 2 80).weekly_remaining) :=
  ⟨(c10_quota_equiv twoToday 300 2 80).1, (c10_quota_equiv oneToday 300 2 80).2⟩
